import Mathlib

/-!
Shallow embedding of the grouping-and-rendering pipeline of
`_jj_mr_email_salesrep_salesinfo.js` (OTP-9789, Monthly Sales Notification
for Sales Rep), a NetSuite MapReduce script, together with the broken
revision `_jj_mr_email_salesrep_salesinfo copy 2.js`.

The `map` stage (lines 41-58) normalizes one transaction row into a CSV
line keyed by sales rep; the `reduce` stage (lines 60-103) renders a
group's lines into a CSV document and attempts email delivery, with
try/catch containment at the row and group level.  External collaborators
(the file store and the mail service) are modelled as boolean oracles;
the platform shuffle (grouping accumulator) is modelled from the spec.
-/

/-- One parsed search-result row, as read by `map` from
`JSON.parse(context.value).values` (lines 43-48).  Each field is `none`
when the corresponding property is absent (JS `undefined`/`null`). -/
structure RawRow where
  entityText : Option String
  email : Option String
  tranid : Option String
  amount : Option String
  salesrepValue : Option String
deriving DecidableEq, Repr

/-- JS `x || d`: the default is taken when `x` is absent or the empty
string (both are falsy in JS). -/
def orDefault (x : Option String) (d : String) : String :=
  match x with
  | none => d
  | some s => if s = "" then d else s

/-- JS `s.includes(',')` for the one-character delimiter: does the
string contain a comma? -/
def hasComma (s : String) : Bool := s.data.any (fun c => c = ',')

/-- Lines 50-51: a field containing a comma is wrapped in double quotes. -/
def escapeField (s : String) : String :=
  if hasComma s then "\"" ++ s ++ "\"" else s

/-- Line 44: `data.entity?.text || 'Unknown'`. -/
def customerName (data : RawRow) : String := orDefault data.entityText "Unknown"

/-- Line 45: `data.email || 'No Email'`. -/
def customerEmail (data : RawRow) : String := orDefault data.email "No Email"

/-- Line 46: `data.tranid || 'Null'`. -/
def docNumber (data : RawRow) : String := orDefault data.tranid "Null"

/-- Line 47: `data.amount || '0.00'`. -/
def amount (data : RawRow) : String := orDefault data.amount "0.00"

/-- Line 48: `data.salesrep?.value || 'Unassigned'`. -/
def salesRepId (data : RawRow) : String := orDefault data.salesrepValue "Unassigned"

/-- Line 53: the CSV line built by `map`, after the comma-escaping of
lines 50-51 has been applied to `customerName` and `customerEmail`
(and, per the source, to no other field). -/
def csvLine (data : RawRow) : String :=
  escapeField (customerName data) ++ "," ++ escapeField (customerEmail data)
    ++ "," ++ docNumber data ++ "," ++ amount data

/-- Line 54: the single key/value pair written by a successful `map`. -/
def mapBody (data : RawRow) : String × String := (salesRepId data, csvLine data)

/-- The `map` body with its failure mode: a malformed row (one whose
`JSON.parse` throws, modelled as `none`) raises; a parsed row writes
exactly one pair (lines 43-54). -/
def mapBodyE : Option RawRow → Except String (String × String)
  | none => Except.error "Map error"
  | some data => Except.ok (mapBody data)

/-- Lines 41-58: the whole `map` entry point.  The surrounding
try/catch turns any raised error into a logged skip with no write. -/
def mapStep (input : Option RawRow) : Option (String × String) :=
  (mapBodyE input).toOption

/-- The map phase over a whole input stream: each row is fed through
`mapStep`; rows whose processing failed contribute nothing. -/
def runMap (inputs : List (Option RawRow)) : List (String × String) :=
  inputs.filterMap mapStep

/-- Quote-aware CSV field splitter (walks the characters, tracking
whether the position is inside a double-quoted region; a comma splits
only outside quotes).  Used to state parse-back properties of rendered
lines. -/
def splitCsvAux : List Char → Bool → String → List String
  | [], _, cur => [cur]
  | c :: rest, inQ, cur =>
    if c = '"' then splitCsvAux rest (!inQ) (cur.push c)
    else if c = ',' ∧ inQ = false then cur :: splitCsvAux rest inQ ""
    else splitCsvAux rest inQ (cur.push c)

/-- Split a CSV line into its comma-separated fields, quote-aware. -/
def splitCsv (s : String) : List String := splitCsvAux s.data false ""

/-! ## The grouping accumulator (platform shuffle) -/

/-- Modelled from the spec: the Grouping Accumulator — the platform's
shuffle between `map` and `reduce`, not part of the script's own code.
Per spec section 4.2: `add(item)` appends to the sequence for
`item.groupKey`, creating the group on first use; iteration order of
items within a group is insertion order. -/
def addToGroups : List (String × List String) → String × String → List (String × List String)
  | [], kv => [(kv.1, [kv.2])]
  | (k, ls) :: gs, kv =>
    if k = kv.1 then (k, ls ++ [kv.2]) :: gs else (k, ls) :: addToGroups gs kv

/-- Modelled from the spec: accumulate the whole stream of key/value
pairs written by the map phase into groups, in arrival order. -/
def accumulate (kvs : List (String × String)) : List (String × List String) :=
  kvs.foldl addToGroups []

/-- The ordered sequence of lines accumulated for one grouping key
(empty when the key has no group). -/
def findGroup (k : String) : List (String × List String) → List String
  | [] => []
  | (k₁, ls) :: gs => if k₁ = k then ls else findGroup k gs

/-! ## The reduce stage: render and dispatch -/

/-- Line 69: the fixed CSV header row. -/
def csvHeader : String := "Customer Name,Customer Email,Document Number,Sales Amount"

/-- JS `allLines.join('\n')`. -/
def joinNL : List String → String
  | [] => ""
  | [l] => l
  | l :: m :: ls => l ++ "\n" ++ joinNL (m :: ls)

/-- Line 69: `csvContent` — the header row followed by the group's
accumulated lines joined by newlines. -/
def renderCsv (allLines : List String) : String :=
  csvHeader ++ "\n" ++ joinNL allLines

/-- Lines 80, 90-91: the resolved recipient of a group's report — the
admin author id `-5` for the `"Unassigned"` sentinel, else the sales
rep identified by the grouping key. -/
inductive Recipient where
  | admin : Recipient
  | rep : String → Recipient
deriving DecidableEq, Repr

/-- Line 79-80: `isUnassigned ? -5 : salesRepId`. -/
def recipientOf (key : String) : Recipient :=
  if key = "Unassigned" then Recipient.admin else Recipient.rep key

/-- Per-group audit-trail outcome: `'Email sent'` (line 96) or
`'Email skipped'` (line 98). -/
inductive DispatchOutcome where
  | delivered : DispatchOutcome
  | skipped : DispatchOutcome
deriving DecidableEq, Repr

/-- What one call of `reduce` records for its group: a dispatch outcome,
or the outer catch's `'Reduce error'` log entry (line 101). -/
inductive GroupResult where
  | outcome : DispatchOutcome → GroupResult
  | errorLogged : String → GroupResult
deriving DecidableEq, Repr

/-- External file store (`file.create`/`csvFile.save()`, lines 71-77):
an oracle decides whether saving the group's file succeeds; on failure
the platform call raises. -/
def fileSave (fileOk : String → Bool) (key : String) : Except String Unit :=
  if fileOk key then Except.ok () else Except.error "file save error"

/-- External mail service (`email.send`, lines 89-95): an oracle decides
whether delivery to the recipient succeeds; on failure the platform call
raises (e.g. the recipient has no usable contact address). -/
def emailSend (sendOk : Recipient → Bool) (r : Recipient) : Except String Unit :=
  if sendOk r then Except.ok () else Except.error "recipient has no usable contact address"

/-- JS try/catch: run a computation that may raise; on a raise, the
handler produces the result instead. -/
def tryCatchJS {α : Type} (body : Except String α) (handler : String → α) : α :=
  match body with
  | Except.ok a => a
  | Except.error e => handler e

/-- Lines 62-99, the body of `reduce` inside the outer `try`: render the
CSV, save the file (may raise), then attempt delivery; the inner
try/catch of lines 88-99 turns a delivery failure into a logged skip. -/
def reduceBody (fileOk : String → Bool) (sendOk : Recipient → Bool)
    (key : String) (lines : List String) : Except String DispatchOutcome := do
  let _csvContent := renderCsv lines
  let _ ← fileSave fileOk key
  match emailSend sendOk (recipientOf key) with
  | Except.ok _ => pure DispatchOutcome.delivered
  | Except.error _ => pure DispatchOutcome.skipped

/-- Lines 60-103, the whole `reduce` entry point: the outer try/catch
(lines 61, 100-102) turns any raise that escapes the body into a logged
error, so `reduce` itself always returns normally. -/
def reduceStep (fileOk : String → Bool) (sendOk : Recipient → Bool)
    (key : String) (lines : List String) : GroupResult :=
  tryCatchJS (Except.map GroupResult.outcome (reduceBody fileOk sendOk key lines))
    GroupResult.errorLogged

/-- `reduce` as the platform invokes it: an invocation fails only if an
exception escapes `reduce`, and the code's outer try/catch means none
does. -/
def reduceRaw (fileOk : String → Bool) (sendOk : Recipient → Bool)
    (g : String × List String) : Except String GroupResult :=
  Except.ok (reduceStep fileOk sendOk g.1 g.2)

/-- The reduce phase over all accumulated groups: the platform invokes
`reduce` once per group, stopping the batch only if an invocation lets
an exception escape. -/
def runBatch (fileOk : String → Bool) (sendOk : Recipient → Bool) :
    List (String × List String) → Except String (List GroupResult)
  | [] => Except.ok []
  | g :: gs => do
    let r ← reduceRaw fileOk sendOk g
    let rs ← runBatch fileOk sendOk gs
    pure (r :: rs)

/-! ## The broken revision (`_jj_mr_email_salesrep_salesinfo copy 2.js`)

Its `map` (lines 64-120) first resolves the sales rep (falling back to a
customer lookup when the transaction carries none, lines 70-89), and then
at line 94 reads `soFields.entity` — but `soFields` is never defined in
the script, so a ReferenceError is raised there on every row that gets
that far. -/

/-- One parsed row of the copy-2 revision: `salesrep` and `entity` are
reference objects carrying `(value, text)` when present. -/
structure RawRowV2 where
  salesrep : Option (String × String)
  entity : Option (String × String)
  tranid : Option String
  amount : Option String
deriving DecidableEq, Repr

/-- Lines 70-89 of the copy-2 revision: the sales-rep id is the
transaction's `salesrep.value` when truthy; when it stays
`'Unassigned'` and the customer reference is truthy, `search.lookupFields`
(an external call that may raise) fetches the customer's default
sales rep. -/
def resolveSalesRep (lookupSalesrep : String → Except String (List (String × String)))
    (data : RawRowV2) : Except String String := do
  let salesRepId :=
    match data.salesrep with
    | some sr => orDefault (some sr.1) "Unassigned"
    | none => "Unassigned"
  if salesRepId = "Unassigned" then
    match data.entity with
    | some ent =>
      if ent.1 = "" then pure salesRepId
      else do
        let customerFields ← lookupSalesrep ent.1
        match customerFields with
        | f :: _ => pure f.1
        | [] => pure salesRepId
    | none => pure salesRepId
  else pure salesRepId

/-- Line 94 of the copy-2 revision reads `soFields.entity`, but
`soFields` is defined nowhere in that script: evaluating the identifier
raises a ReferenceError on every execution path reaching line 94. -/
def soFieldsRef : Except String (List (String × String)) :=
  Except.error "soFields is not defined"

/-- Lines 64-116 of the copy-2 revision, the `map` body inside its
`try`: parse, resolve the sales rep, then (line 94) evaluate `soFields`
— which always raises.  The remainder (customer name/email lookup and
the `context.write` of line 115) is unreachable. -/
def mapBodyV2 (lookupSalesrep : String → Except String (List (String × String)))
    (lookupEmail : String → Except String String) :
    Option RawRowV2 → Except String (String × String)
  | none => Except.error "JSON parse error"
  | some data => do
    let salesRepId ← resolveSalesRep lookupSalesrep data
    let soFields ← soFieldsRef
    let customer :=
      match soFields with
      | ent :: _ => (ent.1, ent.2)
      | [] => ("", "Unknown")
    let customerEmail ←
      if customer.1 = "" then pure "No Email" else lookupEmail customer.1
    let doc := orDefault data.tranid "Null"
    let amt := orDefault data.amount "0.00"
    pure (salesRepId, customer.2 ++ "," ++ customerEmail ++ "," ++ doc ++ "," ++ amt)

/-- The copy-2 `map` entry point: its try/catch (lines 117-119) turns
any raised error into a logged skip with no write. -/
def mapStepV2 (lookupSalesrep : String → Except String (List (String × String)))
    (lookupEmail : String → Except String String) (input : Option RawRowV2) :
    Option (String × String) :=
  (mapBodyV2 lookupSalesrep lookupEmail input).toOption

/-- The copy-2 map phase over a whole input stream. -/
def runMapV2 (lookupSalesrep : String → Except String (List (String × String)))
    (lookupEmail : String → Except String String) (inputs : List (Option RawRowV2)) :
    List (String × String) :=
  inputs.filterMap (mapStepV2 lookupSalesrep lookupEmail)

/-! ## Helper functions for stating rendering and counting properties -/

/-- The text contributed by the lines preceding a given line in a joined
group: each earlier line followed by its newline separator. -/
def preJoin : List String → String
  | [] => ""
  | l :: ls => l ++ "\n" ++ preJoin ls

/-- The text contributed by the lines following a given line in a joined
group: a newline separator and then the remaining joined lines. -/
def sufJoin : List String → String
  | [] => ""
  | l :: ls => "\n" ++ joinNL (l :: ls)

/-- Total number of CSV data lines across all accumulated groups (each
line item contributes exactly one data line to its group's report). -/
def totalDataLines (gs : List (String × List String)) : Nat :=
  (gs.map (fun g => g.2.length)).sum

/-- The spec's escaping scenario: a row whose customer name is
`Acme, Inc.` and whose other fields are comma-free. -/
def acmeRow : RawRow :=
  ⟨some "Acme, Inc.", some "contact@acme.com", some "INV100", some "250.00", some "12"⟩

/-- A row whose document number contains a comma (`tranid` is free text
in the source system), with all other fields comma-free. -/
def commaDocRow : RawRow :=
  ⟨some "Cust", some "c@x.y", some "INV,7", some "1.00", some "12"⟩

/-! ## Supporting lemmas -/

theorem joinNL_cons (l : String) (ls : List String) (h : ls ≠ []) :
    joinNL (l :: ls) = l ++ "\n" ++ joinNL ls := by
  cases ls with
  | nil => exact absurd rfl h
  | cons m ms => rfl

theorem joinNL_middle (ls₁ ls₂ : List String) (l : String) :
    joinNL (ls₁ ++ l :: ls₂) = preJoin ls₁ ++ (l ++ sufJoin ls₂) := by
  induction ls₁ with
  | nil =>
    cases ls₂ with
    | nil => simp [joinNL, preJoin, sufJoin, String.empty_append, String.append_empty]
    | cons m ms =>
      simp [joinNL, preJoin, sufJoin, String.empty_append, String.append_assoc]
  | cons a as ih =>
    rw [List.cons_append, joinNL_cons a (as ++ l :: ls₂) (by simp), ih]
    simp [preJoin, String.append_assoc]

theorem findGroup_addToGroups (gs : List (String × List String)) (kv : String × String)
    (k : String) :
    findGroup k (addToGroups gs kv) =
      findGroup k gs ++ (if kv.1 = k then [kv.2] else []) := by
  induction gs with
  | nil => by_cases h : kv.1 = k <;> simp [addToGroups, findGroup, h]
  | cons g gs ih =>
    obtain ⟨k₁, ls⟩ := g
    by_cases h₁ : k₁ = kv.1
    · by_cases h₂ : k₁ = k
      · have hk : kv.1 = k := h₁ ▸ h₂
        simp [addToGroups, findGroup, h₁, h₂, hk]
      · have hk : ¬kv.1 = k := fun hh => h₂ (h₁.trans hh)
        simp [addToGroups, findGroup, h₁, h₂, hk]
    · by_cases h₂ : k₁ = k
      · have hk : ¬kv.1 = k := fun hh => h₁ (h₂.trans hh.symm)
        have h₁k : ¬k = kv.1 := fun hh => h₁ (h₂ ▸ hh)
        simp [addToGroups, findGroup, h₁, h₂, h₁k, hk]
      · simp [addToGroups, findGroup, h₁, h₂, ih]

theorem findGroup_foldl (kvs : List (String × String)) (gs : List (String × List String))
    (k : String) :
    findGroup k (kvs.foldl addToGroups gs) =
      findGroup k gs ++ (kvs.filter (fun kv => kv.1 == k)).map Prod.snd := by
  induction kvs generalizing gs with
  | nil => simp
  | cons kv kvs ih =>
    rw [List.foldl_cons, ih, findGroup_addToGroups]
    by_cases h : kv.1 = k <;> simp [h]

theorem findGroup_accumulate (kvs : List (String × String)) (k : String) :
    findGroup k (accumulate kvs) = (kvs.filter (fun kv => kv.1 == k)).map Prod.snd := by
  rw [accumulate, findGroup_foldl]
  rfl

theorem totalDataLines_addToGroups (gs : List (String × List String)) (kv : String × String) :
    totalDataLines (addToGroups gs kv) = totalDataLines gs + 1 := by
  induction gs with
  | nil => simp [addToGroups, totalDataLines]
  | cons g gs ih =>
    obtain ⟨k₁, ls⟩ := g
    by_cases h : k₁ = kv.1
    · simp [addToGroups, totalDataLines, h]
      omega
    · simp [addToGroups, totalDataLines, h] at ih ⊢
      omega

theorem totalDataLines_foldl (kvs : List (String × String)) (gs : List (String × List String)) :
    totalDataLines (kvs.foldl addToGroups gs) = totalDataLines gs + kvs.length := by
  induction kvs generalizing gs with
  | nil => simp
  | cons kv kvs ih =>
    rw [List.foldl_cons, ih, totalDataLines_addToGroups, List.length_cons]
    omega

theorem totalDataLines_accumulate (kvs : List (String × String)) :
    totalDataLines (accumulate kvs) = kvs.length := by
  rw [accumulate, totalDataLines_foldl]
  simp [totalDataLines]

theorem length_filterMap_isSome {α β : Type} (f : α → Option β) (l : List α) :
    (l.filterMap f).length = (l.filter (fun a => (f a).isSome)).length := by
  induction l with
  | nil => rfl
  | cons a l ih =>
    cases h : f a <;> simp [List.filterMap_cons, List.filter_cons, h, ih]

theorem runBatch_ok (fileOk : String → Bool) (sendOk : Recipient → Bool)
    (groups : List (String × List String)) :
    runBatch fileOk sendOk groups =
      Except.ok (groups.map (fun g => reduceStep fileOk sendOk g.1 g.2)) := by
  induction groups with
  | nil => rfl
  | cons g gs ih =>
    simp only [runBatch, reduceRaw, ih]
    rfl

theorem reduceStep_skip (fileOk : String → Bool) (sendOk : Recipient → Bool)
    (k : String) (ls : List String) (h₁ : fileOk k = true)
    (h₂ : sendOk (recipientOf k) = false) :
    reduceStep fileOk sendOk k ls = GroupResult.outcome DispatchOutcome.skipped := by
  simp [reduceStep, reduceBody, fileSave, emailSend, h₁, h₂, tryCatchJS, Except.map, Except.bind]

theorem mapStepV2_none (lookupSalesrep : String → Except String (List (String × String)))
    (lookupEmail : String → Except String String) (input : Option RawRowV2) :
    mapStepV2 lookupSalesrep lookupEmail input = none := by
  cases input with
  | none => rfl
  | some data =>
    simp only [mapStepV2, mapBodyV2]
    cases h : resolveSalesRep lookupSalesrep data with
    | error e => rfl
    | ok v => rfl

/-! ## The claims -/

/-- C1: a delivery failure raised while dispatching one group's report
(e.g. the recipient has no usable contact address) is caught inside that
group's processing and recorded as a skip, and the batch never aborts:
it returns exactly one result per group, each computed from that group
alone, so no group's dispatch failure prevents a sibling group from
being rendered and dispatched. -/
theorem C1_dispatch_failure_contained (fileOk : String → Bool) (sendOk : Recipient → Bool)
    (groups : List (String × List String)) :
    runBatch fileOk sendOk groups =
        Except.ok (groups.map (fun g => reduceStep fileOk sendOk g.1 g.2))
      ∧ ∀ k ls, fileOk k = true → sendOk (recipientOf k) = false →
          reduceStep fileOk sendOk k ls = GroupResult.outcome DispatchOutcome.skipped :=
  ⟨runBatch_ok fileOk sendOk groups,
    fun k ls h₁ h₂ => reduceStep_skip fileOk sendOk k ls h₁ h₂⟩

/-- Witness for C1: a concrete batch of two groups under a mail service
that always fails — both groups are attempted and both outcomes are
recorded as skips. -/
theorem C1_dispatch_failure_contained_witness :
    runBatch (fun _ => true) (fun _ => false) [("12", ["a"]), ("Unassigned", ["b"])] =
        Except.ok [GroupResult.outcome DispatchOutcome.skipped,
          GroupResult.outcome DispatchOutcome.skipped]
      ∧ reduceStep (fun _ => true) (fun _ => false) "12" ["a"]
          = GroupResult.outcome DispatchOutcome.skipped := by
  have h := C1_dispatch_failure_contained (fun _ => true) (fun _ => false)
    [("12", ["a"]), ("Unassigned", ["b"])]
  exact ⟨h.1.trans (by rfl), h.2 "12" ["a"] rfl rfl⟩

/-- C2: a row whose normalization fails is logged and skipped without
aborting the batch — removing a malformed row leaves the map phase's
output and the resulting groups unchanged (every sibling row is still
normalized and accumulated), a parsed row yields exactly one key/value
pair, and a malformed row yields none. -/
theorem C2_malformed_row_contained (xs ys : List (Option RawRow)) (data : RawRow) :
    runMap (xs ++ none :: ys) = runMap (xs ++ ys)
      ∧ mapStep (some data) = some (mapBody data)
      ∧ mapStep none = none
      ∧ accumulate (runMap (xs ++ none :: ys)) = accumulate (runMap (xs ++ ys)) := by
  have h1 : runMap (xs ++ none :: ys) = runMap (xs ++ ys) := by
    simp [runMap, List.filterMap_append, List.filterMap_cons, mapStep, mapBodyE,
      Except.toOption]
  exact ⟨h1, rfl, rfl, by rw [h1]⟩

/-- C3: a row with an absent sales-rep reference is keyed by the
sentinel `"Unassigned"`, and the sentinel group's report is addressed
to the admin recipient; a row carrying a sales-rep identifier is keyed
by that identifier, and a non-sentinel group is addressed to the rep it
names. -/
theorem C3_unassigned_sentinel (data : RawRow) (s : String) :
    (data.salesrepValue = none → salesRepId data = "Unassigned")
      ∧ (data.salesrepValue = some s → s ≠ "" → salesRepId data = s)
      ∧ recipientOf "Unassigned" = Recipient.admin
      ∧ (∀ k, k ≠ "Unassigned" → recipientOf k = Recipient.rep k) :=
  ⟨fun h => by simp [salesRepId, orDefault, h],
    fun h hs => by simp [salesRepId, orDefault, h, hs],
    by simp [recipientOf],
    fun k hk => by simp [recipientOf, hk]⟩

/-- Witness for C3: a concrete row without a sales rep is keyed
`"Unassigned"` and that group goes to the admin; a concrete row with
rep `"12"` is keyed `"12"`. -/
theorem C3_unassigned_sentinel_witness :
    salesRepId ⟨some "A", some "a@b.c", some "I1", some "1.00", none⟩ = "Unassigned"
      ∧ salesRepId ⟨some "A", some "a@b.c", some "I1", some "1.00", some "12"⟩ = "12"
      ∧ recipientOf "Unassigned" = Recipient.admin :=
  ⟨(C3_unassigned_sentinel ⟨some "A", some "a@b.c", some "I1", some "1.00", none⟩ "12").1 rfl,
    (C3_unassigned_sentinel ⟨some "A", some "a@b.c", some "I1", some "1.00", some "12"⟩ "12").2.1
      rfl (by decide),
    (C3_unassigned_sentinel ⟨some "A", some "a@b.c", some "I1", some "1.00", none⟩ "12").2.2.1⟩

/-- C4 as stated is false at a concrete input: the document-number field
of `commaDocRow` contains a comma, yet the rendered line leaves it
unquoted, and the line parses back (quote-aware) into 5 fields, not 4 —
the code quotes only the customer-name and customer-email fields. -/
theorem C4_counterexample :
    csvLine commaDocRow = "Cust,c@x.y,INV,7,1.00"
      ∧ (splitCsv (csvLine commaDocRow)).length ≠ 4 := by
  constructor <;> decide

/-- C4 amended: only the customer-name and customer-email fields are
escaped — when the customer name contains a comma the rendered line
wraps it in double quotes exactly once, with the document number and
amount rendered verbatim; in particular the `Acme, Inc.` row renders
that field as `"Acme, Inc."` and its line parses back (quote-aware)
into exactly 4 comma-separated fields. -/
theorem C4_comma_quoting (data : RawRow) :
    (hasComma (customerName data) = true →
        csvLine data = "\"" ++ customerName data ++ "\"" ++ ","
          ++ escapeField (customerEmail data) ++ "," ++ docNumber data ++ "," ++ amount data)
      ∧ csvLine acmeRow = "\"Acme, Inc.\",contact@acme.com,INV100,250.00"
      ∧ splitCsv (csvLine acmeRow) = ["\"Acme, Inc.\"", "contact@acme.com", "INV100", "250.00"] := by
  refine ⟨fun h => ?_, by decide, by decide⟩
  simp [csvLine, escapeField, h, String.append_assoc]

/-- Witness for C4 (amended): the quoting equation evaluated at the
`Acme, Inc.` row. -/
theorem C4_comma_quoting_witness :
    csvLine acmeRow = "\"" ++ customerName acmeRow ++ "\"" ++ ","
      ++ escapeField (customerEmail acmeRow) ++ "," ++ docNumber acmeRow ++ ","
      ++ amount acmeRow :=
  (C4_comma_quoting acmeRow).1 (by decide)

/-- C5 as stated is false at a concrete input: applying the pipeline's
field-escaping step to its own output on the comma-containing field
`a,b` wraps it in quotes a second time instead of leaving it
unchanged. -/
theorem C5_counterexample :
    escapeField (escapeField "a,b") = "\"\"a,b\"\""
      ∧ escapeField (escapeField "a,b") ≠ escapeField "a,b" := by
  constructor <;> decide

/-- C5 amended: escaping is applied exactly once per field, solely in
the normalizer — the renderer concatenates each accumulated line
verbatim between separators that do not depend on it, so a rendered
LineItem's already-escaped fields are never wrapped in quotes again at
render time; the escaping step itself, applied directly to its own
comma-containing output, is not idempotent. -/
theorem C5_escape_once (ls₁ ls₂ : List String) (l : String) :
    renderCsv (ls₁ ++ l :: ls₂) = csvHeader ++ "\n" ++ (preJoin ls₁ ++ (l ++ sufJoin ls₂)) := by
  rw [renderCsv, joinNL_middle]

/-- C6: for every group, the rendered output is the fixed header row
followed by exactly one line per accumulated item, joined by newlines,
in the order those rows arrived within that group — regardless of how
the groups interleave in the input stream. -/
theorem C6_render_order (kvs : List (String × String)) (k : String) :
    renderCsv (findGroup k (accumulate kvs)) =
        csvHeader ++ "\n" ++ joinNL ((kvs.filter (fun kv => kv.1 == k)).map Prod.snd)
      ∧ (findGroup k (accumulate kvs)).length = (kvs.filter (fun kv => kv.1 == k)).length := by
  have h := findGroup_accumulate kvs k
  exact ⟨by rw [renderCsv, h], by rw [h, List.length_map]⟩

/-- C7: the normalizer substitutes fixed defaults for absent fields —
`"Unknown"` for the customer name, `"No Email"` for the customer email,
`"Null"` (the placeholder) for the document number, `"0.00"` for the
amount — and passes present (non-empty) values through unchanged. -/
theorem C7_defaults (data : RawRow) (v : String) :
    (data.entityText = none → customerName data = "Unknown")
      ∧ (data.entityText = some v → v ≠ "" → customerName data = v)
      ∧ (data.email = none → customerEmail data = "No Email")
      ∧ (data.email = some v → v ≠ "" → customerEmail data = v)
      ∧ (data.tranid = none → docNumber data = "Null")
      ∧ (data.tranid = some v → v ≠ "" → docNumber data = v)
      ∧ (data.amount = none → amount data = "0.00")
      ∧ (data.amount = some v → v ≠ "" → amount data = v) :=
  ⟨fun h => by simp [customerName, orDefault, h],
    fun h hv => by simp [customerName, orDefault, h, hv],
    fun h => by simp [customerEmail, orDefault, h],
    fun h hv => by simp [customerEmail, orDefault, h, hv],
    fun h => by simp [docNumber, orDefault, h],
    fun h hv => by simp [docNumber, orDefault, h, hv],
    fun h => by simp [amount, orDefault, h],
    fun h hv => by simp [amount, orDefault, h, hv]⟩

/-- Witness for C7: an all-absent row gets every default, and a fully
populated row passes its values through. -/
theorem C7_defaults_witness :
    customerName ⟨none, none, none, none, none⟩ = "Unknown"
      ∧ customerEmail ⟨none, none, none, none, none⟩ = "No Email"
      ∧ docNumber ⟨none, none, none, none, none⟩ = "Null"
      ∧ amount ⟨none, none, none, none, none⟩ = "0.00"
      ∧ customerName ⟨some "A", some "a@b.c", some "I1", some "2.00", some "12"⟩ = "A" :=
  ⟨(C7_defaults ⟨none, none, none, none, none⟩ "A").1 rfl,
    (C7_defaults ⟨none, none, none, none, none⟩ "A").2.2.1 rfl,
    (C7_defaults ⟨none, none, none, none, none⟩ "A").2.2.2.2.1 rfl,
    (C7_defaults ⟨none, none, none, none, none⟩ "A").2.2.2.2.2.2.1 rfl,
    (C7_defaults ⟨some "A", some "a@b.c", some "I1", some "2.00", some "12"⟩ "A").2.1 rfl
      (by decide)⟩

/-- C8: rendering is deterministic — the rendered CSV text is a function
of the accumulated items alone, so rendering the same item sequence
twice yields byte-identical text. -/
theorem C8_render_deterministic (ls₁ ls₂ : List String) (h : ls₁ = ls₂) :
    renderCsv ls₁ = renderCsv ls₂ :=
  congrArg renderCsv h

/-- Witness for C8: rendering a concrete one-line group twice yields the
same text. -/
theorem C8_render_deterministic_witness :
    renderCsv ["a,b,c,d"] = renderCsv ["a,b,c,d"] :=
  C8_render_deterministic ["a,b,c,d"] ["a,b,c,d"] rfl

/-- C9: in the copy-2 revision, whose line 94 references the undefined
variable `soFields`, every row's normalization fails (the map's catch
branch is taken and the failure logged), so no key/value pair is ever
written, no group forms, and no report is produced — whatever the
lookup collaborators return. -/
theorem C9_broken_revision_no_reports
    (lookupSalesrep : String → Except String (List (String × String)))
    (lookupEmail : String → Except String String)
    (input : Option RawRowV2) (inputs : List (Option RawRowV2)) :
    mapStepV2 lookupSalesrep lookupEmail input = none
      ∧ runMapV2 lookupSalesrep lookupEmail inputs = []
      ∧ accumulate (runMapV2 lookupSalesrep lookupEmail inputs) = [] := by
  have h2 : runMapV2 lookupSalesrep lookupEmail inputs = [] := by
    rw [runMapV2, List.filterMap_eq_nil_iff]
    exact fun a _ => mapStepV2_none lookupSalesrep lookupEmail a
  exact ⟨mapStepV2_none lookupSalesrep lookupEmail input, h2, by rw [h2]; rfl⟩

/-- C10: conservation of rows — every successfully normalized row
contributes exactly one key/value pair, each pair lands in exactly one
group (its own key's sequence, in arrival order), and the total number
of data lines summed over all rendered reports equals the number of
successfully normalized rows. -/
theorem C10_row_conservation (inputs : List (Option RawRow)) :
    totalDataLines (accumulate (runMap inputs)) = (runMap inputs).length
      ∧ (runMap inputs).length = (inputs.filter (fun i => (mapStep i).isSome)).length
      ∧ ∀ k, findGroup k (accumulate (runMap inputs)) =
          ((runMap inputs).filter (fun kv => kv.1 == k)).map Prod.snd :=
  ⟨totalDataLines_accumulate (runMap inputs),
    length_filterMap_isSome mapStep inputs,
    fun k => findGroup_accumulate (runMap inputs) k⟩
